import Mathlib

/-!
Verification of the Soil-Crop Nutrient Balance & Timing Engine
(`server.js` of the fert repository) against its specification.

The JavaScript source is shallowly embedded over `ℚ`.  Conventions:

* JS numbers are modelled as rationals.  Where the source can produce the
  IEEE value `NaN` (a division of a nonzero constant by a zero soil value
  in the rice correction formulas, whose `Infinity` is then multiplied by
  `0`), the embedding uses `Option ℚ`, `none` standing for the poisoned
  (NaN) result.
* `Math.round x` is `⌊x + 1/2⌋` (round half toward positive infinity),
  which is the JS semantics for all finite arguments.
* `Math.random()` is modelled as an explicit sequence `r : ℕ → ℚ`; the
  simulated-soil fallback reads `r 0`, `r 1`, `r 2` in source order.
* `new Date(s)` on an unparseable string yields an Invalid Date whose
  arithmetic is `NaN`; every comparison with `NaN` is `false` and no
  exception is thrown.  A sowing date is therefore modelled as
  `Option ℤ` (the day difference from the crop norm), `none` standing
  for the `NaN` day difference of an unparseable date.
* Strings that only feed the UI (descriptions, advice text, nutrient
  level labels) are omitted; numeric fields and provenance tags are kept.
-/

namespace Fert

/-- Crop enum: the engine distinguishes rice (水稻) and wheat (小麦/冬小麦). -/
inductive Crop where
  | rice
  | wheat
deriving DecidableEq

/-- Provenance tag of a soil nutrient value (`data_source` strings in the
source: 'GeoTIFF', '模拟数据', '手动输入', '默认值'). -/
inductive Source where
  | geotiff
  | simulated
  | manual
  | defaultv
deriving DecidableEq

/-- JS `Math.round`: round half toward positive infinity. -/
def jround (x : ℚ) : ℤ := ⌊x + 1/2⌋

/-- Embeds `Math.round (x * 10) / 10`: rounding to one decimal at output time. -/
def round1 (x : ℚ) : ℚ := (jround (x * 10) : ℚ) / 10

/-- JS `x || d` for a possibly-missing number: `null`/`undefined`/`NaN`
(modelled as `none`) and `0` are falsy and give the default. -/
def orFalsyQ (o : Option ℚ) (d : ℚ) : ℚ :=
  match o with
  | none => d
  | some v => if v = 0 then d else v

/-- JS `x || d` for a number already at hand (used for the split ratios). -/
def orFalsyR (x d : ℚ) : ℚ := if x = 0 then d else x

/-- Embeds `Math.max 0 (Math.min 1 x)` from `adjustFertilizerRatio`. -/
def clamp01 (x : ℚ) : ℚ := max 0 (min 1 x)

/-! ## RasterSampler (`extractValueFromGeoTIFF`, server.js lines 89-117) -/

/-- One loaded GeoTIFF layer from `geotiffCache`: pixel counts, bounding
box and the flat row-major sample array. -/
structure RasterLayer where
  width : ℕ
  height : ℕ
  minX : ℚ
  minY : ℚ
  maxX : ℚ
  maxY : ℚ
  samples : List ℚ
deriving DecidableEq

/-- Embeds `cellWidth = (bbox[2] - bbox[0]) / width` (layer loading, line 65). -/
def cellWidth (L : RasterLayer) : ℚ := (L.maxX - L.minX) / (L.width : ℚ)

/-- Embeds `cellHeight = (bbox[3] - bbox[1]) / height` (layer loading, line 66). -/
def cellHeight (L : RasterLayer) : ℚ := (L.maxY - L.minY) / (L.height : ℚ)

/-- The NODATA test of line 112:
`value < -9999 || value > 100000 || value === -9999 || value === -32768`. -/
def isNodata (v : ℚ) : Bool :=
  decide (v < -9999) || decide (100000 < v) || decide (v = -9999) || decide (v = -32768)

/-- Embeds `col = Math.floor((lon - cache.minX) / cache.cellWidth)` (line 99). -/
def colOf (L : RasterLayer) (lon : ℚ) : ℤ := ⌊(lon - L.minX) / cellWidth L⌋

/-- Embeds `row = Math.floor((cache.maxY - lat) / cache.cellHeight)` (line 100). -/
def rowOf (L : RasterLayer) (lat : ℚ) : ℤ := ⌊(L.maxY - lat) / cellHeight L⌋

/-- Embeds `extractValueFromGeoTIFF(lon, lat, layer)`: bbox test, pixel mapping by
flooring, post-floor bounds re-check, row-major indexing, NODATA test. -/
def extractValueFromGeoTIFF (L : RasterLayer) (lon lat : ℚ) : Option ℚ :=
  if lon < L.minX ∨ L.maxX < lon ∨ lat < L.minY ∨ L.maxY < lat then none
  else
    if colOf L lon < 0 ∨ (L.width : ℤ) ≤ colOf L lon ∨
        rowOf L lat < 0 ∨ (L.height : ℤ) ≤ rowOf L lat then none
    else
      match L.samples[(rowOf L lat * (L.width : ℤ) + colOf L lon).toNat]? with
      | none => none
      | some v => if isNodata v then none else some v

/-- The in-memory `geotiffCache`: one optional layer per nutrient; `none`
models `!cache || !cache.data` (layer missing or failed to load). -/
structure GeoCache where
  AN : Option RasterLayer
  AP : Option RasterLayer
  AK : Option RasterLayer

/-- Layer lookup preamble of `extractValueFromGeoTIFF` (line 91). -/
def geoLayerValue (l : Option RasterLayer) (lon lat : ℚ) : Option ℚ :=
  match l with
  | none => none
  | some ly => extractValueFromGeoTIFF ly lon lat

/-! ## SoilNutrientResolver (server.js lines 122-167, 325-427) -/

/-- The decoded per-nutrient results of `getSoilNutrientsFromGeoTIFF`. -/
structure GeoVals where
  AN : Option ℚ
  AP : Option ℚ
  AK : Option ℚ
  hasValid : Bool

/-- Embeds `getSoilNutrientsFromGeoTIFF(lon, lat)`: raw extraction per layer,
then decode `Math.round(raw)/10` for AN/AK and `Math.round(raw)/100`
for AP (lines 136-166; the level label strings are omitted). -/
def getSoilNutrientsFromGeoTIFF (lon lat : ℚ) (geo : GeoCache) : GeoVals :=
  let an := geoLayerValue geo.AN lon lat
  let ap := geoLayerValue geo.AP lon lat
  let ak := geoLayerValue geo.AK lon lat
  { AN := an.map (fun v => (jround v : ℚ) / 10)
    AP := ap.map (fun v => (jround v : ℚ) / 100)
    AK := ak.map (fun v => (jround v : ℚ) / 10)
    hasValid := an.isSome || ap.isSome || ak.isSome }

/-- The three simulated soil values of `getSimulatedSoilNutrients`. -/
structure SimSoil where
  N : ℚ
  P : ℚ
  K : ℚ

/-- Embeds `getSimulatedSoilNutrients(lon, lat)` (lines 325-345): deterministic
spatial trend plus jitter from `Math.random()` (modelled as the explicit
sequence `r`, consumed in source order), clamped per nutrient and rounded
to one decimal. -/
def getSimulatedSoilNutrients (lon lat : ℚ) (r : ℕ → ℚ) : SimSoil :=
  let baseAN := 89.2 + (lon - 114) * 2 + (lat - 30) * 3
  let baseAP := 23.8 + (lon - 114) * 0.5 + (lat - 30) * 0.8
  let baseAK := 105.0 + (lon - 114) * 1.5 + (lat - 30) * 2
  let randv : ℕ → ℚ → ℚ → ℚ := fun i lo hi => r i * (hi - lo) + lo
  let an := max 50 (min 150 (baseAN + randv 0 (-10) 10))
  let ap := max 5 (min 40 (baseAP + randv 1 (-5) 5))
  let ak := max 60 (min 200 (baseAK + randv 2 (-20) 20))
  { N := round1 an, P := round1 ap, K := round1 ak }

/-- The caller-supplied partial custom soil record `custom_soil_data`. -/
structure CustomSoil where
  N : Option ℚ
  P : Option ℚ
  K : Option ℚ
deriving DecidableEq

/-- The merged soil record produced by the resolver (level label strings
omitted). -/
structure SoilData where
  soil_N : ℚ
  soil_P : ℚ
  soil_K : ℚ
  src_N : Source
  src_P : Source
  src_K : Source
  is_default : Bool
  use_custom : Bool
deriving DecidableEq

/-- Embeds `getSoilNutrientsWithCustom(lon, lat, customSoilData)` (lines 347-427):
GeoTIFF values first (each present nutrient sets `is_default` to `false`
inside the `has_valid_data` block), simulated fill for the missing ones,
then manual override per nutrient (which sets `use_custom` but does not
touch `is_default`). -/
def getSoilNutrientsWithCustom (lon lat : ℚ) (custom : Option CustomSoil)
    (geo : GeoCache) (r : ℕ → ℚ) : SoilData :=
  let gv := getSoilNutrientsFromGeoTIFF lon lat geo
  let sim := getSimulatedSoilNutrients lon lat r
  let isDef : Bool := !(gv.hasValid && (gv.AN.isSome || gv.AP.isSome || gv.AK.isSome))
  let gN : Option ℚ := if gv.hasValid then gv.AN else none
  let gP : Option ℚ := if gv.hasValid then gv.AP else none
  let gK : Option ℚ := if gv.hasValid then gv.AK else none
  let sN := gN.getD sim.N
  let sP := gP.getD sim.P
  let sK := gK.getD sim.K
  let srcN : Source := if gN.isSome then .geotiff else .simulated
  let srcP : Source := if gP.isSome then .geotiff else .simulated
  let srcK : Source := if gK.isSome then .geotiff else .simulated
  match custom with
  | none =>
      { soil_N := sN, soil_P := sP, soil_K := sK
        src_N := srcN, src_P := srcP, src_K := srcK
        is_default := isDef, use_custom := false }
  | some c =>
      { soil_N := c.N.getD sN, soil_P := c.P.getD sP, soil_K := c.K.getD sK
        src_N := if c.N.isSome then .manual else srcN
        src_P := if c.P.isSome then .manual else srcP
        src_K := if c.K.isSome then .manual else srcK
        is_default := isDef
        use_custom := c.N.isSome || c.P.isSome || c.K.isSome }

/-! ## NutrientBalanceCalculator (`CropRotationFertilizerModel`, lines 252-708) -/

/-- Per-crop constants of `defaultParams` used by the balance computation
(the normal sowing date and the carbon/nitrogen ratio only feed display
strings or the date plumbing modelled elsewhere and are omitted). -/
structure CropParams where
  N_per_100kg : ℚ
  P_per_100kg : ℚ
  K_per_100kg : ℚ
  straw_N : ℚ
  straw_P : ℚ
  straw_K : ℚ
  straw_moisture : ℚ
  N_release_rate : ℚ
  P_release_rate : ℚ
  K_release_rate : ℚ
  N_fertilizer_efficiency : ℚ
  P_fertilizer_efficiency : ℚ
  K_fertilizer_efficiency : ℚ

/-- Embeds `defaultParams.rice` (lines 258-265). -/
def riceParams : CropParams :=
  { N_per_100kg := 2.2, P_per_100kg := 1.2, K_per_100kg := 2.5
    straw_N := 0.6, straw_P := 0.1, straw_K := 1.8
    straw_moisture := 40
    N_release_rate := -0.6, P_release_rate := 0.65, K_release_rate := 0.80
    N_fertilizer_efficiency := 0.30, P_fertilizer_efficiency := 0.25
    K_fertilizer_efficiency := 0.45 }

/-- Embeds `defaultParams.wheat` (lines 266-280). -/
def wheatParams : CropParams :=
  { N_per_100kg := 3.0, P_per_100kg := 1.5, K_per_100kg := 2.8
    straw_N := 0.5, straw_P := 0.1, straw_K := 1.2
    straw_moisture := 15
    N_release_rate := 0.35, P_release_rate := 0.75, K_release_rate := 0.90
    N_fertilizer_efficiency := 0.40, P_fertilizer_efficiency := 0.18
    K_fertilizer_efficiency := 0.50 }

/-- Embeds `defaultParams[cropType]`. -/
def cropParams : Crop → CropParams
  | .rice => riceParams
  | .wheat => wheatParams

/-- Embeds `defaultParams.urea_N_content` (line 255). -/
def urea_N_content : ℚ := 0.46

/-- Embeds `defaultParams.superphosphate_P_content` (line 256). -/
def superphosphate_P_content : ℚ := 0.12

/-- Embeds `defaultParams.potassium_chloride_K_content` (line 257). -/
def potassium_chloride_K_content : ℚ := 0.60

/-- Embeds `defaultParams.wheat.formula_ratio = [20, 15, 10]` (line 279). -/
def wheat_formula_ratio : ℚ × ℚ × ℚ := (20, 15, 10)

/-- Embeds `soil_impact.organic_matter_impact.N` (line 283). -/
def omImpactN (om : ℚ) : ℚ := 1 + 0.015 * (om - 20)

/-- Embeds `soil_impact.organic_matter_impact.P` (line 284). -/
def omImpactP (om : ℚ) : ℚ := 1 + 0.01 * (om - 20)

/-- Embeds `soil_impact.organic_matter_impact.K` (line 285). -/
def omImpactK (om : ℚ) : ℚ := 1 + 0.008 * (om - 20)

/-- Embeds `soil_impact.ph_impact_on_p.adjustment` (line 289). -/
def phImpactOnP (ph : ℚ) : ℚ := if 6 ≤ ph ∧ ph ≤ 7 then 1 else 0.7

/-- Embeds `calculateNutrientRequirement(targetYield, cropType)` (lines 433-440). -/
def calculateNutrientRequirement (targetYield : ℚ) (p : CropParams) : ℚ × ℚ × ℚ :=
  ((targetYield / 100) * p.N_per_100kg,
   (targetYield / 100) * p.P_per_100kg,
   (targetYield / 100) * p.K_per_100kg)

/-- Embeds `calculateSoilSupply(soilN, soilP, soilK, organicMatter, soilPh, cropType)`
(lines 442-467).  The rice corrections divide constants by the soil values;
a zero soil value makes that division `Infinity` in JS and the subsequent
product `soil * 0.15 * Infinity` the value `NaN`, modelled here as `none`.
The wheat corrections use `Math.exp`, passed in as the function `expf`. -/
def calculateSoilSupply (soilN soilP soilK om ph : ℚ) (crop : Crop)
    (expf : ℚ → ℚ) : Option ℚ × Option ℚ × Option ℚ :=
  let nCorr : Option ℚ :=
    match crop with
    | .rice => if soilN = 0 then none else some ((3.2164 + 4799.9239 / soilN) / 100)
    | .wheat => some (0.821222 * expf (-0.005429 * soilN))
  let pCorr : Option ℚ :=
    match crop with
    | .rice => if soilP = 0 then none else some ((17.4898 + 2235.9674 / soilP) / 100)
    | .wheat => some (1.976 * expf (-0.041744 * soilP))
  let kCorr : Option ℚ :=
    match crop with
    | .rice => if soilK = 0 then none else some ((10.7412 + 6147.1032 / soilK) / 100)
    | .wheat => some (1.1038 * expf (-0.006362 * soilK))
  let phImpact := phImpactOnP ph
  (nCorr.map (fun c => soilN * 0.15 * c * omImpactN om),
   pCorr.map (fun c => soilP * 0.15 * c * omImpactP om * phImpact),
   kCorr.map (fun c => soilK * 0.15 * c * omImpactK om))

/-- Embeds `calculateStrawSupply(amount, strawType)` (lines 469-482): dry weight,
per-nutrient release (nitrogen release may be negative), and the residual
`dryWeight * 0.005` folded into basal nitrogen only. -/
def calculateStrawSupply (amount : ℚ) (p : CropParams) : ℚ × ℚ × ℚ × ℚ :=
  if amount ≤ 0 then (0, 0, 0, 0)
  else
    let dryWeight := amount * (1 - p.straw_moisture / 100)
    let nTotal := dryWeight * (p.straw_N / 100)
    let pTotal := dryWeight * (p.straw_P / 100)
    let kTotal := dryWeight * (p.straw_K / 100)
    (nTotal * p.N_release_rate, pTotal * p.P_release_rate,
     kTotal * p.K_release_rate, dryWeight * 0.005)

/-! ## SplitRatioAdjuster (`adjustFertilizerRatio`, lines 484-516) -/

/-- The three stage fractions: base dressing, middle stage (tillering for
rice / jointing for wheat) and late stage (panicle / booting). -/
structure Ratio3 where
  base : ℚ
  mid : ℚ
  late : ℚ
deriving DecidableEq

/-- Embeds `adjustFertilizerRatio(sowingDate, cropType, tempForecast)`.
`dd` is the day difference `Math.round((actualDate - normalDate)/86400000)`;
`none` models the `NaN` produced by an unparseable sowing date, for which
both regime comparisons `NaN < -7` and `NaN > 7` are `false`, so the
normal-regime triple is selected (no exception is thrown, so the `catch`
branch of the source is not taken).  The cold-temperature shift and the
final clamping apply in every case. -/
def adjustFertilizerRatio (dd : Option ℤ) (crop : Crop) (tempForecast : ℚ) : Ratio3 :=
  match crop with
  | .rice =>
      let t : ℚ × ℚ × ℚ :=
        match dd with
        | some d => if d < -7 then (0.40, 0.25, 0.35)
                    else if 7 < d then (0.55, 0.30, 0.15)
                    else (0.50, 0.25, 0.25)
        | none => (0.50, 0.25, 0.25)
      let t2 := if tempForecast < 20 then (t.1 + 0.05, t.2.1, t.2.2 - 0.05) else t
      { base := clamp01 t2.1, mid := clamp01 t2.2.1, late := clamp01 t2.2.2 }
  | .wheat =>
      let t : ℚ × ℚ × ℚ :=
        match dd with
        | some d => if d < -7 then (0.60, 0.25, 0.15)
                    else if 7 < d then (0.70, 0.20, 0.10)
                    else (0.65, 0.25, 0.10)
        | none => (0.65, 0.25, 0.10)
      let t2 := if tempForecast < 10 then (t.1 + 0.05, t.2.1, t.2.2 - 0.05) else t
      { base := clamp01 t2.1, mid := clamp01 t2.2.1, late := clamp01 t2.2.2 }

/-! ## Wheat yield-tier table (lines 273-278, 518-525) -/

/-- One entry of `defaultParams.wheat.yield_levels`; `max = none` models
the `Infinity` upper bound of the last tier. -/
structure YieldLevel where
  min : ℚ
  max : Option ℚ
  bf_lo : ℚ
  bf_hi : ℚ
  ut_lo : ℚ
  ut_hi : ℚ

/-- Embeds `defaultParams.wheat.yield_levels`. -/
def wheatYieldLevels : List YieldLevel :=
  [⟨0, some 300, 25, 30, 6, 8⟩,
   ⟨300, some 400, 30, 40, 8, 10⟩,
   ⟨400, some 500, 40, 50, 10, 12⟩,
   ⟨500, none, 50, 55, 12, 14⟩]

/-- Embeds `getWheatFertilizerByYield(targetYield)` (lines 518-525): first tier
containing the yield, falling back to the last tier; returns the midpoints
of the base-fertilizer and urea-tillering ranges. -/
def getWheatFertilizerByYield (y : ℚ) : ℚ × ℚ :=
  let l := (wheatYieldLevels.find? (fun l =>
      decide (l.min ≤ y) && (match l.max with
                             | some mx => decide (y ≤ mx)
                             | none => true))).getD ⟨500, none, 50, 55, 12, 14⟩
  ((l.bf_lo + l.bf_hi) / 2, (l.ut_lo + l.ut_hi) / 2)

/-! ## `calculateFertilizerRecommendation` (lines 527-708)

The function is embedded compositionally.  Two pieces of plumbing are
represented by resolved inputs rather than re-implemented string parsing:

* `effN/effP/effK : Option ℚ` stand for the triple returned by
  `getFertilizerEfficiency(lon, lat, cropType)` (nearest GeoJSON feature;
  `none` when no feature collection is loaded).  The source consults them
  only when both coordinates were supplied (line 604).
* `dd : Option ℤ` stands for the day difference between the resolved
  sowing date (input, GeoJSON nearest farming feature, or the crop default
  date, lines 568-585) and the crop norm date as computed inside
  `adjustFertilizerRatio`; `none` models an unparseable date (`NaN`).
-/

/-- The `inputParams` record assembled by the `/calculate` route
(lines 1594-1606) and consumed by `calculateFertilizerRecommendation`. -/
structure InputParams where
  target_yield : Option ℚ
  custom_soil_data : Option CustomSoil
  use_custom_soil : Bool
  lon : Option ℚ
  lat : Option ℚ
  organic_matter : Option ℚ
  soil_ph : Option ℚ
  straw_return_amount : Option ℚ
  temperature_forecast : Option ℚ

/-- Soil-record resolution of lines 533-561: coordinates present →
`getSoilNutrientsWithCustom`; else custom data with `use_custom_soil` →
an all-manual record (note `is_default: true` there in the source); else
the per-crop default record. -/
def soilDataOf (geo : GeoCache) (r : ℕ → ℚ) (crop : Crop) (p : InputParams) : SoilData :=
  if p.lon.isSome && p.lat.isSome then
    getSoilNutrientsWithCustom (orFalsyQ p.lon 114.305) (orFalsyQ p.lat 30.592)
      p.custom_soil_data geo r
  else
    match p.custom_soil_data, p.use_custom_soil with
    | some c, true =>
        { soil_N := c.N.getD 89.2, soil_P := c.P.getD 23.8, soil_K := c.K.getD 105.0
          src_N := .manual, src_P := .manual, src_K := .manual
          is_default := true, use_custom := true }
    | _, _ =>
        { soil_N := if crop = .rice then 89.2 else 89
          soil_P := if crop = .rice then 23.83 else 23
          soil_K := if crop = .rice then 105 else 90
          src_N := .defaultv, src_P := .defaultv, src_K := .defaultv
          is_default := true, use_custom := false }

/-- The intermediate quantities of steps 1-7 (lines 563-619) that feed the
per-stage recommendation: required fertilizer nutrient masses (`none` is
the NaN poisoned by a zero soil value in a rice correction), the straw
residual nitrogen, and the split ratios. -/
structure Mid where
  nFert : Option ℚ
  pFert : Option ℚ
  kFert : Option ℚ
  nAdd : ℚ
  ratio : Ratio3

/-- Steps 1-7 of `calculateFertilizerRecommendation` (lines 563-619). -/
def midOf (effN effP effK : Option ℚ) (dd : Option ℤ) (strawSource : Option Crop)
    (expf : ℚ → ℚ) (crop : Crop) (p : InputParams) (soil : SoilData) : Mid :=
  let y := orFalsyQ p.target_yield 500
  let om := p.organic_matter.getD 20.7
  let ph := p.soil_ph.getD 8.18
  let strawAmt := p.straw_return_amount.getD (if crop = .rice then 600 else 700)
  let temp := p.temperature_forecast.getD (if crop = .rice then 22.5 else 12.0)
  let sst := strawSource.getD (if crop = .rice then .wheat else .rice)
  let req := calculateNutrientRequirement y (cropParams crop)
  let sup := calculateSoilSupply soil.soil_N soil.soil_P soil.soil_K om ph crop expf
  let straw := calculateStrawSupply strawAmt (cropParams sst)
  let phImpact := phImpactOnP ph
  let geoEff : Option ℚ × Option ℚ × Option ℚ :=
    if p.lon.isSome && p.lat.isSome then (effN, effP, effK) else (none, none, none)
  let nEff := geoEff.1.getD (cropParams crop).N_fertilizer_efficiency
  let pEff := geoEff.2.1.getD (cropParams crop).P_fertilizer_efficiency
  let kEff := geoEff.2.2.getD (cropParams crop).K_fertilizer_efficiency
  let pEfficiency := pEff * phImpact
  let nReq : ℚ := req.1
  let pReq : ℚ := req.2.1
  let kReq : ℚ := req.2.2
  let nStraw : ℚ := straw.1
  let pStraw : ℚ := straw.2.1
  let kStraw : ℚ := straw.2.2.1
  { nFert := sup.1.map (fun s => max 0 ((nReq - s - nStraw) / nEff))
    pFert := sup.2.1.map (fun s => max 0 ((pReq - s - pStraw) / pEfficiency))
    kFert := sup.2.2.map (fun s => max 0 ((kReq - s - kStraw) / kEff))
    nAdd := straw.2.2.2
    ratio := adjustFertilizerRatio dd crop temp }

/-- Embeds `nBase = nFertilizer * (base_ratio || 0.50) + nAdditional` (line 626). -/
def riceNBase (m : Mid) : Option ℚ :=
  m.nFert.map (fun f => f * orFalsyR m.ratio.base 0.5 + m.nAdd)

/-- Embeds `nTiller = nFertilizer * (tiller_ratio || 0.25)` (line 627). -/
def riceNTiller (m : Mid) : Option ℚ :=
  m.nFert.map (fun f => f * orFalsyR m.ratio.mid 0.25)

/-- Embeds `nPanicle = nFertilizer * (panicle_ratio || 0.25)` (line 628). -/
def riceNPanicle (m : Mid) : Option ℚ :=
  m.nFert.map (fun f => f * orFalsyR m.ratio.late 0.25)

/-- The basal share `kFertilizer * 0.6` of the potassium requirement. -/
def riceKBase (m : Mid) : Option ℚ := m.kFert.map (fun f => f * 0.6)

/-- The panicle share `kFertilizer * 0.4` of the potassium requirement. -/
def riceKPanicle (m : Mid) : Option ℚ := m.kFert.map (fun f => f * 0.4)

/-- The rice recommendation (lines 625-651): `肥料用量` product masses and
`养分用量` nutrient masses, each rounded to one decimal at output.  `none`
is a NaN value (serialized as `null` by the JSON layer). -/
structure RiceRec where
  urea_base : Option ℚ
  urea_tiller : Option ℚ
  urea_panicle : Option ℚ
  superphosphate_base : Option ℚ
  kcl_base : Option ℚ
  kcl_panicle : Option ℚ
  n_base : Option ℚ
  n_tiller : Option ℚ
  n_panicle : Option ℚ
  p2o5_total : Option ℚ
  k2o_total : Option ℚ
deriving DecidableEq

/-- The wheat recommendation (lines 652-678): product masses from the
yield-tier table and the formula ratios. -/
structure WheatRec where
  formula_base : ℚ
  urea_jointing : ℚ
  superphosphate_base : ℚ
  kcl_base : ℚ
  n_base : ℚ
  n_jointing : ℚ
  p2o5_total : ℚ
  k2o_total : ℚ
deriving DecidableEq

/-- Rice branch of step 8 (lines 625-651). -/
def riceRecOf (effN effP effK : Option ℚ) (dd : Option ℤ) (strawSource : Option Crop)
    (expf : ℚ → ℚ) (p : InputParams) (soil : SoilData) : RiceRec :=
  let m := midOf effN effP effK dd strawSource expf .rice p soil
  { urea_base := (riceNBase m).map (fun x => round1 (x / urea_N_content))
    urea_tiller := (riceNTiller m).map (fun x => round1 (x / urea_N_content))
    urea_panicle := (riceNPanicle m).map (fun x => round1 (x / urea_N_content))
    superphosphate_base := m.pFert.map (fun x => round1 (x / superphosphate_P_content))
    kcl_base := (riceKBase m).map (fun x => round1 (x / potassium_chloride_K_content))
    kcl_panicle := (riceKPanicle m).map (fun x => round1 (x / potassium_chloride_K_content))
    n_base := (riceNBase m).map round1
    n_tiller := (riceNTiller m).map round1
    n_panicle := (riceNPanicle m).map round1
    p2o5_total := m.pFert.map round1
    k2o_total := m.kFert.map round1 }

/-- Wheat branch of step 8 (lines 652-678). -/
def wheatRecOf (p : InputParams) : WheatRec :=
  let y := orFalsyQ p.target_yield 500
  let fk := getWheatFertilizerByYield y
  let formulaN := fk.1 * (wheat_formula_ratio.1 / 100)
  let formulaP := fk.1 * (wheat_formula_ratio.2.1 / 100)
  let formulaK := fk.1 * (wheat_formula_ratio.2.2 / 100)
  { formula_base := round1 fk.1
    urea_jointing := round1 fk.2
    superphosphate_base := round1 (formulaP / superphosphate_P_content)
    kcl_base := round1 (formulaK / potassium_chloride_K_content)
    n_base := round1 formulaN
    n_jointing := round1 (fk.2 * urea_N_content)
    p2o5_total := round1 formulaP
    k2o_total := round1 formulaK }

/-- A calculation result: one of the two per-crop recommendation shapes. -/
inductive Recommendation where
  | riceRec (r : RiceRec)
  | wheatRec (w : WheatRec)
deriving DecidableEq

/-- Step 8 dispatch on the crop. -/
def recFromSoil (effN effP effK : Option ℚ) (dd : Option ℤ) (strawSource : Option Crop)
    (expf : ℚ → ℚ) (crop : Crop) (p : InputParams) (soil : SoilData) : Recommendation :=
  match crop with
  | .rice => .riceRec (riceRecOf effN effP effK dd strawSource expf p soil)
  | .wheat => .wheatRec (wheatRecOf p)

/-- Embeds `calculateFertilizerRecommendation(inputParams, cropType, strawSourceType)`:
soil resolution followed by the balance computation and step-8 assembly. -/
def recOf (geo : GeoCache) (r : ℕ → ℚ) (effN effP effK : Option ℚ) (dd : Option ℤ)
    (strawSource : Option Crop) (expf : ℚ → ℚ) (crop : Crop) (p : InputParams) :
    Recommendation :=
  recFromSoil effN effP effK dd strawSource expf crop p (soilDataOf geo r crop p)

/-! ## TimingAdvisor (`calculateGrowthStage`, lines 1127-1155;
`generateTimingAdvice`, lines 1417-1443) -/

/-- The growth stages produced by `calculateGrowthStage` (the source uses
Chinese strings: 播种前, 播种期, 幼苗期, 分蘖期, 拔节期, 孕穗期,
抽穗扬花期, 成熟期, 越冬期, 返青期). -/
inductive Stage where
  | preSowing
  | sowingStage
  | seedlingStage
  | tilleringStage
  | jointingStage
  | bootingStage
  | headingStage
  | maturityStage
  | overwinteringStage
  | greenupStage
deriving DecidableEq

/-- Embeds `calculateGrowthStage(cropType, sowingDate)`.  `sow = none` is a
missing sowing date (falsy, early return of stage 播种期); `sow = some
none` is an unparseable date, whose `NaN` day count fails every `<`
comparison so the chain falls through to 成熟期; `sow = some (some d)` is
a parsed date `d` rounded days before today. -/
def calculateGrowthStage (crop : Crop) (sow : Option (Option ℤ)) : Stage :=
  match sow with
  | none => .sowingStage
  | some dopt =>
      match crop, dopt with
      | _, none => .maturityStage
      | .rice, some d =>
          if d < 0 then .preSowing
          else if d < 7 then .sowingStage
          else if d < 21 then .seedlingStage
          else if d < 45 then .tilleringStage
          else if d < 65 then .jointingStage
          else if d < 85 then .bootingStage
          else if d < 105 then .headingStage
          else .maturityStage
      | .wheat, some d =>
          if d < 0 then .preSowing
          else if d < 15 then .sowingStage
          else if d < 60 then .tilleringStage
          else if d < 120 then .overwinteringStage
          else if d < 150 then .greenupStage
          else if d < 180 then .jointingStage
          else if d < 210 then .bootingStage
          else if d < 240 then .headingStage
          else .maturityStage

/-- The `can_fertilize` field of `generateTimingAdvice(cropType,
growthStage, weather)` (lines 1417-1443; the advice strings are omitted):
initialised to `weather.suitable && !['成熟期','收获期'].includes(stage)`
(no stage function ever yields 收获期), then the rice 成熟期 branch and
the wheat 越冬期/成熟期 branches force it to `false`. -/
def canFertilizeOf (crop : Crop) (stage : Stage) (suitable : Bool) : Bool :=
  let c0 := suitable && !(decide (stage = .maturityStage))
  match crop with
  | .rice => if stage = .maturityStage then false else c0
  | .wheat =>
      if stage = .overwinteringStage then false
      else if stage = .maturityStage then false
      else c0

/-! ## The `/calculate` route (lines 1548-1610) -/

/-- The parsed request body of a `/calculate` POST.  `yieldTruthy`,
`lonPresent`, `latPresent` model the raw truthiness / null checks made
before `parseFloat`; the `...Num` fields are the `parseFloat` results,
`none` standing for `NaN` (missing or unparseable). -/
structure CalcRequest where
  crop : Option String
  yieldTruthy : Bool
  yieldNum : Option ℚ
  hasDate : Bool
  lonPresent : Bool
  latPresent : Bool
  lonNum : Option ℚ
  latNum : Option ℚ
  custom : CustomSoil
  use_custom_soil : Bool

/-- The coordinate-window test of line 1584:
`lon >= 110 && lon <= 122 && lat >= 28 && lat <= 33`.  A `NaN` coordinate
(modelled as `none`) fails every comparison. -/
def inWindow (lo la : Option ℚ) : Bool :=
  match lo, la with
  | some x, some y =>
      decide (110 ≤ x) && decide (x ≤ 122) && decide (28 ≤ y) && decide (y ≤ 33)
  | _, _ => false

/-- The validation chain and dispatch of `app.post('/calculate')`
(lines 1548-1610).  Each `.error` is one of the structured 400 rejections;
`.ok` carries the result of `calculateFertilizerRecommendation`, so an
`.error` value also witnesses that no fertilizer computation ran. -/
def calcHandler (geo : GeoCache) (r : ℕ → ℚ) (effN effP effK : Option ℚ)
    (dd : Option ℤ) (expf : ℚ → ℚ) (req : CalcRequest) :
    Except String Recommendation :=
  if !(decide (req.crop = some "水稻") || decide (req.crop = some "小麦")) then
    .error "作物类型必须是水稻或小麦"
  else if !req.yieldTruthy then
    .error "缺少目标产量参数"
  else if !req.hasDate && (!req.lonPresent || !req.latPresent) then
    .error "缺少播种日期参数或经纬度参数"
  else if (match req.yieldNum with
           | some y => decide (y ≤ 0) || decide (1000 < y)
           | none => false) then
    .error "产量必须在1-1000之间"
  else if inWindow req.lonNum req.latNum then
    if (match req.custom.N with
        | some v => decide (v < 0) || decide (300 < v)
        | none => false) then
      .error "碱解氮N值必须在0-300之间"
    else if (match req.custom.P with
             | some v => decide (v < 0) || decide (100 < v)
             | none => false) then
      .error "有效磷P值必须在0-100之间"
    else if (match req.custom.K with
             | some v => decide (v < 0) || decide (500 < v)
             | none => false) then
      .error "有效钾K值必须在0-500之间"
    else
      let internalCrop : Crop := if req.crop = some "水稻" then .rice else .wheat
      let strawSourceType : Crop := if internalCrop = .rice then .wheat else .rice
      let params : InputParams :=
        { target_yield := req.yieldNum
          custom_soil_data := if req.use_custom_soil then some req.custom else none
          use_custom_soil := req.use_custom_soil
          lon := req.lonNum
          lat := req.latNum
          organic_matter := some 20.7
          soil_ph := some 8.18
          straw_return_amount := some (if internalCrop = .rice then 600 else 700)
          temperature_forecast := some (if internalCrop = .rice then 22.5 else 12.0) }
      .ok (recOf geo r effN effP effK dd (some strawSourceType) expf internalCrop params)
  else
    .error "经纬度超出长江中下游地区范围"

/-! ## Spec-side definitions and concrete fixtures used by the theorems -/

/-- The rice nitrogen soil supply exactly as the spec sentence states it:
`soil.N * 0.15 * corr_N * omFactor_N` with
`corr_N = (3.2164 + 4799.9239/soil.N)/100` and the linear organic-matter
factor centered at `om = 20`. -/
def specRiceSupplyN (soilN om : ℚ) : ℚ :=
  soilN * 0.15 * ((3.2164 + 4799.9239 / soilN) / 100) * (1 + 0.015 * (om - 20))

/-- The rice phosphorus soil supply as the spec states it, including the
pH factor `1.0` on `[6.0, 7.0]` and `0.7` otherwise. -/
def specRiceSupplyP (soilP om ph : ℚ) : ℚ :=
  soilP * 0.15 * ((17.4898 + 2235.9674 / soilP) / 100) * (1 + 0.01 * (om - 20)) *
    (if 6 ≤ ph ∧ ph ≤ 7 then 1 else 0.7)

/-- The rice potassium soil supply as the spec states it. -/
def specRiceSupplyK (soilK om : ℚ) : ℚ :=
  soilK * 0.15 * ((10.7412 + 6147.1032 / soilK) / 100) * (1 + 0.008 * (om - 20))

/-- An empty raster cache: no GeoTIFF layer loaded. -/
def geoEmpty : GeoCache := ⟨none, none, none⟩

/-- A request with coordinates and a manual custom soil nitrogen value. -/
def pManual : InputParams :=
  { target_yield := some 500
    custom_soil_data := some ⟨some 200, none, none⟩
    use_custom_soil := true
    lon := some 114.305
    lat := some 30.592
    organic_matter := some 20.7
    soil_ph := some 8.18
    straw_return_amount := some 600
    temperature_forecast := some 22.5 }

/-- The nitrogen nutrient mass behind the wheat urea-jointing product:
the source fixes the product mass `ureaTilleringKg` from the yield table
and reports the nutrient mass as `ureaTilleringKg * urea_N_content`. -/
def wheatNJointMass (y : ℚ) : ℚ := (getWheatFertilizerByYield y).2 * urea_N_content

/-- The phosphorus nutrient mass of the wheat basal formula fertilizer:
`formulaKg * (formula_ratio[1] / 100)`. -/
def wheatPMass (y : ℚ) : ℚ :=
  (getWheatFertilizerByYield y).1 * (wheat_formula_ratio.2.1 / 100)

/-- The potassium nutrient mass of the wheat basal formula fertilizer:
`formulaKg * (formula_ratio[2] / 100)`. -/
def wheatKMass (y : ℚ) : ℚ :=
  (getWheatFertilizerByYield y).1 * (wheat_formula_ratio.2.2 / 100)

/-- A request at the spec's Scenario C coordinate (200, 50). -/
def reqOutside : CalcRequest :=
  { crop := some "水稻"
    yieldTruthy := true
    yieldNum := some 500
    hasDate := false
    lonPresent := true
    latPresent := true
    lonNum := some 200
    latNum := some 50
    custom := ⟨none, none, none⟩
    use_custom_soil := false }

/-- A concrete 2×2 layer on the box `[0, 2] × [0, 2]`. -/
def rasterWit : RasterLayer :=
  { width := 2, height := 2, minX := 0, minY := 0, maxX := 2, maxY := 2
    samples := [1, 2, 3, 4] }

/-- A request that passes every `/calculate` validation — rice, yield 500,
coordinates inside the window, custom soil `N = 0` (the inclusive lower
bound of the 0-300 validation range). -/
def pBugZeroN : InputParams :=
  { target_yield := some 500
    custom_soil_data := some ⟨some 0, none, none⟩
    use_custom_soil := true
    lon := some 114.305
    lat := some 30.592
    organic_matter := some 20.7
    soil_ph := some 8.18
    straw_return_amount := some 600
    temperature_forecast := some 22.5 }

/-! ## Helper lemmas -/

/-- The function `clamp01` is the identity on `[0, 1]`. -/
theorem clamp01_of {x : ℚ} (h0 : 0 ≤ x) (h1 : x ≤ 1) : clamp01 x = x := by
  unfold clamp01
  rw [min_eq_right h1, max_eq_right h0]

/-- The function `clamp01` never goes below `0`. -/
theorem clamp01_nonneg (x : ℚ) : 0 ≤ clamp01 x := le_max_left 0 _

/-- The function `clamp01` never exceeds `1`. -/
theorem clamp01_le_one (x : ℚ) : clamp01 x ≤ 1 :=
  max_le (by norm_num) (min_le_left 1 x)

/-! ## C3: rice soil-supply formula -/

/-- C3: for every soil record with nonzero nutrient values reaching the
balance calculator with crop rice, `calculateSoilSupply` returns exactly
`soil.X * 0.15 * corr_X * omFactor_X(om)` per nutrient, with
`corr_N = (3.2164 + 4799.9239/soil.N)/100`,
`corr_P = (17.4898 + 2235.9674/soil.P)/100`,
`corr_K = (10.7412 + 6147.1032/soil.K)/100`, the organic-matter factors
linear and centered at `om = 20`, and the phosphorus term additionally
multiplied by the pH factor (`1.0` on `[6.0, 7.0]`, else `0.7`). -/
theorem c3_rice_soil_supply (soilN soilP soilK om ph : ℚ) (expf : ℚ → ℚ)
    (hN : soilN ≠ 0) (hP : soilP ≠ 0) (hK : soilK ≠ 0) :
    calculateSoilSupply soilN soilP soilK om ph Crop.rice expf =
      (some (specRiceSupplyN soilN om), some (specRiceSupplyP soilP om ph),
       some (specRiceSupplyK soilK om)) := by
  simp [calculateSoilSupply, specRiceSupplyN, specRiceSupplyP, specRiceSupplyK,
        omImpactN, omImpactP, omImpactK, phImpactOnP, hN, hP, hK]

/-- Witness for C3 at the default soil record (89.2, 23.8, 105) with the
default organic matter 20.7 and pH 8.18. -/
theorem c3_rice_soil_supply_witness :
    (89.2 : ℚ) ≠ 0 ∧ (23.8 : ℚ) ≠ 0 ∧ (105 : ℚ) ≠ 0 ∧
    calculateSoilSupply 89.2 23.8 105 20.7 8.18 Crop.rice (fun x => x) =
      (some (specRiceSupplyN 89.2 20.7), some (specRiceSupplyP 23.8 20.7 8.18),
       some (specRiceSupplyK 105 20.7)) :=
  ⟨by norm_num, by norm_num, by norm_num,
   c3_rice_soil_supply 89.2 23.8 105 20.7 8.18 (fun x => x)
     (by norm_num) (by norm_num) (by norm_num)⟩

/-! ## C5: split ratios sum to one and lie in [0, 1] -/

/-- C5: for both crops, every sowing-date regime (early, normal, late, and
the `NaN` day difference of an unparseable date) and every temperature
forecast, the three stage fractions returned by `adjustFertilizerRatio`
sum to `1.0` within `1e-6` and each lies in `[0, 1]`. -/
theorem c5_split_ratios (crop : Crop) (dd : Option ℤ) (temp : ℚ) :
    |(adjustFertilizerRatio dd crop temp).base + (adjustFertilizerRatio dd crop temp).mid +
        (adjustFertilizerRatio dd crop temp).late - 1| ≤ 1 / 1000000 ∧
    0 ≤ (adjustFertilizerRatio dd crop temp).base ∧
      (adjustFertilizerRatio dd crop temp).base ≤ 1 ∧
    0 ≤ (adjustFertilizerRatio dd crop temp).mid ∧
      (adjustFertilizerRatio dd crop temp).mid ≤ 1 ∧
    0 ≤ (adjustFertilizerRatio dd crop temp).late ∧
      (adjustFertilizerRatio dd crop temp).late ≤ 1 := by
  cases crop <;> rcases dd with _ | d <;>
    simp only [adjustFertilizerRatio] <;>
    split_ifs <;>
    (repeat rw [clamp01_of (by norm_num) (by norm_num)]) <;>
    exact ⟨by rw [abs_le]; constructor <;> norm_num, by norm_num, by norm_num,
           by norm_num, by norm_num, by norm_num, by norm_num⟩

/-! ## C7: unparseable sowing date -/

/-- C7 counterexample: on an unparseable sowing date (`NaN` day
difference) with a rice forecast of 15 °C (below the 20 °C cold
threshold), the adjuster does NOT return the rice normal-regime triple
(0.50, 0.25, 0.25) unmodified: the cold shift is still applied, giving
(0.55, 0.25, 0.20). -/
theorem c7_counterexample :
    adjustFertilizerRatio none Crop.rice 15 =
        { base := 0.55, mid := 0.25, late := 0.20 } ∧
    adjustFertilizerRatio none Crop.rice 15 ≠
        { base := 0.50, mid := 0.25, late := 0.25 } := by
  have h : adjustFertilizerRatio none Crop.rice 15 =
      { base := 0.55, mid := 0.25, late := 0.20 } := by
    simp only [adjustFertilizerRatio]
    rw [if_pos (by norm_num)]
    rw [clamp01_of (by norm_num) (by norm_num), clamp01_of (by norm_num) (by norm_num),
        clamp01_of (by norm_num) (by norm_num)]
    norm_num
  refine ⟨h, ?_⟩
  rw [h]
  intro hcontr
  have := congrArg Ratio3.base hcontr
  norm_num at this

/-- C7 amended: an unparseable sowing date fails soft — no exception is
raised (`new Date` yields an Invalid Date, not a throw) and the `NaN` day
difference selects the normal regime, but the cold-temperature adjustment
and clamping still apply, exactly as for a sowing date on the crop norm
(day difference 0). -/
theorem c7_unparseable_date_as_normal_regime (crop : Crop) (temp : ℚ) :
    adjustFertilizerRatio none crop temp = adjustFertilizerRatio (some 0) crop temp := by
  cases crop <;> norm_num [adjustFertilizerRatio]

/-! ## C2: the `is_default` flag -/

/-- The resolver's `is_default` equals the negation of the GeoTIFF
`has_valid_data` flag: manual overrides never touch it. -/
theorem getSoilNutrientsWithCustom_is_default (lon lat : ℚ) (custom : Option CustomSoil)
    (geo : GeoCache) (r : ℕ → ℚ) :
    (getSoilNutrientsWithCustom lon lat custom geo r).is_default =
      !(getSoilNutrientsFromGeoTIFF lon lat geo).hasValid := by
  unfold getSoilNutrientsWithCustom
  cases custom <;>
    simp [getSoilNutrientsFromGeoTIFF, Bool.and_self]

/-- C2 counterexample: with no raster layer loaded and a user-supplied
custom soil nitrogen of 200 (source MANUAL), the returned record still
has `is_default = true`, contradicting the claim that MANUAL data forces
`is_default = false`. -/
theorem c2_counterexample :
    (soilDataOf geoEmpty (fun _ => 0) Crop.rice pManual).src_N = Source.manual ∧
    (soilDataOf geoEmpty (fun _ => 0) Crop.rice pManual).is_default = true := by
  constructor <;>
    simp [soilDataOf, pManual, getSoilNutrientsWithCustom, getSoilNutrientsFromGeoTIFF,
          geoLayerValue, geoEmpty]

/-- C2 amended: `is_default` is `false` exactly when both coordinates were
supplied and the GeoTIFF sampler produced a value for at least one
nutrient (the resolver's `has_valid_data`); user-supplied MANUAL values
set `use_custom` instead and leave `is_default` unchanged, and the
custom-only and default branches always report `is_default = true`. -/
theorem c2_is_default_iff_raster (geo : GeoCache) (r : ℕ → ℚ) (crop : Crop)
    (p : InputParams) :
    (soilDataOf geo r crop p).is_default = false ↔
      ((p.lon.isSome && p.lat.isSome) = true ∧
       (getSoilNutrientsFromGeoTIFF (orFalsyQ p.lon 114.305) (orFalsyQ p.lat 30.592)
           geo).hasValid = true) := by
  unfold soilDataOf
  by_cases hc : (p.lon.isSome && p.lat.isSome) = true
  · rw [if_pos hc, getSoilNutrientsWithCustom_is_default]
    simp [hc]
  · rw [if_neg hc]
    rcases p.custom_soil_data with _ | c <;> rcases hb : p.use_custom_soil <;>
      simp [hc]

/-! ## C9: the can-fertilize decision -/

/-- For every stage value, `canFertilizeOf` agrees with the conjunction
"weather suitable AND not maturity AND (wheat → not overwintering)". -/
theorem canFertilizeOf_eq (crop : Crop) (st : Stage) (suitable : Bool) :
    canFertilizeOf crop st suitable =
      (suitable && !(decide (st = Stage.maturityStage)) &&
       !(decide (crop = Crop.wheat) && decide (st = Stage.overwinteringStage))) := by
  cases crop <;> cases st <;> cases suitable <;> rfl

/-- C9: for every crop, sowing-date input and weather suitability, the
timing advice's can-fertilize flag is true iff the weather is suitable
and the growth stage computed from days since sowing is not maturity,
with wheat overwintering additionally forcing it to false. -/
theorem c9_can_fertilize (crop : Crop) (sow : Option (Option ℤ)) (suitable : Bool) :
    canFertilizeOf crop (calculateGrowthStage crop sow) suitable =
      (suitable && !(decide (calculateGrowthStage crop sow = Stage.maturityStage)) &&
       !(decide (crop = Crop.wheat) &&
         decide (calculateGrowthStage crop sow = Stage.overwinteringStage))) :=
  canFertilizeOf_eq crop (calculateGrowthStage crop sow) suitable

/-! ## C6: commodity conversion -/

/-- C6: for both crops, each recommended commodity product mass equals
the corresponding required fertilizer nutrient mass divided by that
product's nutrient-content fraction — 0.46 for urea (N), the configured
superphosphate fraction 0.12 for P, and 0.60 for potassium chloride (K)
— rounded to one decimal at output.  For rice the per-stage nitrogen
masses are `riceNBase/riceNTiller/riceNPanicle`, phosphorus is `pFert`
and potassium is split 60/40 into `riceKBase/riceKPanicle`; for wheat
the nutrient masses come from the yield-tier table. -/
theorem c6_product_conversion (effN effP effK : Option ℚ) (dd : Option ℤ)
    (ss : Option Crop) (expf : ℚ → ℚ) (p : InputParams) (soil : SoilData) :
    (riceRecOf effN effP effK dd ss expf p soil).urea_base =
        (riceNBase (midOf effN effP effK dd ss expf Crop.rice p soil)).map
          (fun x => round1 (x / urea_N_content)) ∧
    (riceRecOf effN effP effK dd ss expf p soil).urea_tiller =
        (riceNTiller (midOf effN effP effK dd ss expf Crop.rice p soil)).map
          (fun x => round1 (x / urea_N_content)) ∧
    (riceRecOf effN effP effK dd ss expf p soil).urea_panicle =
        (riceNPanicle (midOf effN effP effK dd ss expf Crop.rice p soil)).map
          (fun x => round1 (x / urea_N_content)) ∧
    (riceRecOf effN effP effK dd ss expf p soil).superphosphate_base =
        (midOf effN effP effK dd ss expf Crop.rice p soil).pFert.map
          (fun x => round1 (x / superphosphate_P_content)) ∧
    (riceRecOf effN effP effK dd ss expf p soil).kcl_base =
        (riceKBase (midOf effN effP effK dd ss expf Crop.rice p soil)).map
          (fun x => round1 (x / potassium_chloride_K_content)) ∧
    (riceRecOf effN effP effK dd ss expf p soil).kcl_panicle =
        (riceKPanicle (midOf effN effP effK dd ss expf Crop.rice p soil)).map
          (fun x => round1 (x / potassium_chloride_K_content)) ∧
    (wheatRecOf p).urea_jointing =
        round1 (wheatNJointMass (orFalsyQ p.target_yield 500) / urea_N_content) ∧
    (wheatRecOf p).superphosphate_base =
        round1 (wheatPMass (orFalsyQ p.target_yield 500) / superphosphate_P_content) ∧
    (wheatRecOf p).kcl_base =
        round1 (wheatKMass (orFalsyQ p.target_yield 500) / potassium_chloride_K_content) := by
  refine ⟨rfl, rfl, rfl, rfl, rfl, rfl, ?_, rfl, rfl⟩
  show round1 (getWheatFertilizerByYield (orFalsyQ p.target_yield 500)).2 =
    round1 (wheatNJointMass (orFalsyQ p.target_yield 500) / urea_N_content)
  unfold wheatNJointMass urea_N_content
  rw [mul_div_cancel_right₀ _ (by norm_num : (0.46 : ℚ) ≠ 0)]

/-! ## C10: determinism under a fixed random sequence -/

/-- Two random sequences agreeing on the three consumed indices yield the
same simulated soil record. -/
theorem getSimulatedSoilNutrients_congr (lon lat : ℚ) (r1 r2 : ℕ → ℚ)
    (h : ∀ i, i < 3 → r1 i = r2 i) :
    getSimulatedSoilNutrients lon lat r1 = getSimulatedSoilNutrients lon lat r2 := by
  simp only [getSimulatedSoilNutrients]
  rw [h 0 (by norm_num), h 1 (by norm_num), h 2 (by norm_num)]

/-- The merged soil record depends on the random source only through the
simulated fallback record. -/
theorem getSoilNutrientsWithCustom_congr (lon lat : ℚ) (custom : Option CustomSoil)
    (geo : GeoCache) (r1 r2 : ℕ → ℚ) (h : ∀ i, i < 3 → r1 i = r2 i) :
    getSoilNutrientsWithCustom lon lat custom geo r1 =
      getSoilNutrientsWithCustom lon lat custom geo r2 := by
  unfold getSoilNutrientsWithCustom
  rw [getSimulatedSoilNutrients_congr lon lat r1 r2 h]

/-- Soil resolution depends on the random source only through the three
simulated jitter draws. -/
theorem soilDataOf_congr (geo : GeoCache) (r1 r2 : ℕ → ℚ) (crop : Crop)
    (p : InputParams) (h : ∀ i, i < 3 → r1 i = r2 i) :
    soilDataOf geo r1 crop p = soilDataOf geo r2 crop p := by
  unfold soilDataOf
  rw [getSoilNutrientsWithCustom_congr _ _ _ _ r1 r2 h]

/-- C10: running the engine twice with identical inputs and an identical
random sequence substituted for the simulated-soil fallback (the only
randomness, `Math.random()`, modelled as the injectable sequence `r`,
consumed only at indices 0, 1, 2) yields identical output. -/
theorem c10_deterministic (geo : GeoCache) (r1 r2 : ℕ → ℚ) (effN effP effK : Option ℚ)
    (dd : Option ℤ) (ss : Option Crop) (expf : ℚ → ℚ) (crop : Crop) (p : InputParams)
    (h : ∀ i, i < 3 → r1 i = r2 i) :
    recOf geo r1 effN effP effK dd ss expf crop p =
      recOf geo r2 effN effP effK dd ss expf crop p := by
  unfold recOf
  rw [soilDataOf_congr geo r1 r2 crop p h]

/-- Witness for C10: a fixed sequence trivially agrees with itself, and
the engine output at a concrete rice request is identical across the two
runs. -/
theorem c10_deterministic_witness :
    (∀ i : ℕ, i < 3 → (fun _ : ℕ => (1 : ℚ) / 2) i = (fun _ : ℕ => (1 : ℚ) / 2) i) ∧
    recOf geoEmpty (fun _ => 1 / 2) none none none (some 0) none (fun x => x)
        Crop.rice pManual =
      recOf geoEmpty (fun _ => 1 / 2) none none none (some 0) none (fun x => x)
        Crop.rice pManual :=
  ⟨fun _ _ => rfl,
   c10_deterministic geoEmpty (fun _ => 1 / 2) (fun _ => 1 / 2) none none none
     (some 0) none (fun x => x) Crop.rice pManual (fun _ _ => rfl)⟩

/-! ## C8: coordinate validation -/

/-- C8: every `/calculate` request whose longitude and latitude are not
both numbers inside `[110, 122] × [28, 33]` — including requests that
supply a sowing date but omit coordinates, whose missing values parse to
`NaN` and fail the window comparison — is answered with a structured
validation rejection, and no fertilizer computation is performed (the
handler never reaches the `.ok` branch that would run `recOf`). -/
theorem c8_coordinate_validation (geo : GeoCache) (r : ℕ → ℚ)
    (effN effP effK : Option ℚ) (dd : Option ℤ) (expf : ℚ → ℚ) (req : CalcRequest)
    (h : inWindow req.lonNum req.latNum = false) :
    ∃ msg, calcHandler geo r effN effP effK dd expf req = .error msg := by
  unfold calcHandler
  rw [h, if_neg (show ¬(false = true) by simp)]
  split_ifs <;> exact ⟨_, rfl⟩

/-- Witness for C8: the coordinate (200, 50) is outside the validity
window and the handler returns a validation rejection. -/
theorem c8_coordinate_validation_witness :
    inWindow reqOutside.lonNum reqOutside.latNum = false ∧
    ∃ msg, calcHandler geoEmpty (fun _ => 0) none none none (some 0) (fun x => x)
        reqOutside = .error msg :=
  ⟨by norm_num [inWindow, reqOutside],
   c8_coordinate_validation geoEmpty (fun _ => 0) none none none (some 0) (fun x => x)
     reqOutside (by norm_num [inWindow, reqOutside])⟩

/-! ## C4: raster sampler safety and NODATA behaviour -/

/-- C4: for every loaded raster layer whose sample array has exactly
`width * height` entries, and every coordinate: the sampler returns
NODATA (`none`) outside the bounding box; inside the box it returns
`none` whenever the floored column or row falls outside
`[0, width) × [0, height)` (which is what happens at the exact boundary
`lon = maxX` / `lat = minY`); otherwise the row-major index
`row * width + col` is strictly within the sample array — no
out-of-bounds access can occur, in particular not at `lon = minX`,
`lon = maxX`, `lat = minY` or `lat = maxY` — and the stored value is
returned unless it satisfies the NODATA conditions
(`< -9999`, `> 100000`, `= -9999`, `= -32768`), in which case `none`. -/
theorem c4_raster_sampler (L : RasterLayer) (lon lat : ℚ)
    (hlen : L.samples.length = L.width * L.height) :
    ((lon < L.minX ∨ L.maxX < lon ∨ lat < L.minY ∨ L.maxY < lat) →
        extractValueFromGeoTIFF L lon lat = none) ∧
    (L.minX ≤ lon → lon ≤ L.maxX → L.minY ≤ lat → lat ≤ L.maxY →
      ((colOf L lon < 0 ∨ (L.width : ℤ) ≤ colOf L lon ∨ rowOf L lat < 0 ∨
          (L.height : ℤ) ≤ rowOf L lat) → extractValueFromGeoTIFF L lon lat = none) ∧
      (0 ≤ colOf L lon → colOf L lon < (L.width : ℤ) → 0 ≤ rowOf L lat →
        rowOf L lat < (L.height : ℤ) →
        (rowOf L lat * (L.width : ℤ) + colOf L lon).toNat < L.samples.length ∧
        ∀ v, L.samples[(rowOf L lat * (L.width : ℤ) + colOf L lon).toNat]? = some v →
          (isNodata v = true → extractValueFromGeoTIFF L lon lat = none) ∧
          (isNodata v = false → extractValueFromGeoTIFF L lon lat = some v))) := by
  constructor
  · intro hout
    unfold extractValueFromGeoTIFF
    rw [if_pos hout]
  · intro h1 h2 h3 h4
    have hbb : ¬(lon < L.minX ∨ L.maxX < lon ∨ lat < L.minY ∨ L.maxY < lat) := by
      push_neg
      exact ⟨h1, h2, h3, h4⟩
    constructor
    · intro hcr
      unfold extractValueFromGeoTIFF
      rw [if_neg hbb, if_pos hcr]
    · intro hc0 hcw hr0 hrh
      have hcr : ¬(colOf L lon < 0 ∨ (L.width : ℤ) ≤ colOf L lon ∨ rowOf L lat < 0 ∨
          (L.height : ℤ) ≤ rowOf L lat) := by
        push_neg
        exact ⟨hc0, hcw, hr0, hrh⟩
      have hidx : (rowOf L lat * (L.width : ℤ) + colOf L lon).toNat < L.samples.length := by
        rw [hlen]
        have hz : rowOf L lat * (L.width : ℤ) + colOf L lon <
            ((L.width * L.height : ℕ) : ℤ) := by
          push_cast
          calc rowOf L lat * (L.width : ℤ) + colOf L lon
              < rowOf L lat * (L.width : ℤ) + (L.width : ℤ) := by linarith
            _ = (rowOf L lat + 1) * (L.width : ℤ) := by ring
            _ ≤ (L.height : ℤ) * (L.width : ℤ) := by
                have h5 : rowOf L lat + 1 ≤ (L.height : ℤ) := by omega
                exact mul_le_mul_of_nonneg_right h5 (by positivity)
            _ = (L.width : ℤ) * (L.height : ℤ) := by ring
        have hz0 : 0 ≤ rowOf L lat * (L.width : ℤ) + colOf L lon := by
          have hm : (0 : ℤ) ≤ rowOf L lat * (L.width : ℤ) :=
            mul_nonneg hr0 (by positivity)
          linarith
        omega
      refine ⟨hidx, fun v hv => ⟨fun hnd => ?_, fun hnd => ?_⟩⟩
      · unfold extractValueFromGeoTIFF
        rw [if_neg hbb, if_neg hcr, hv]
        simp [hnd]
      · unfold extractValueFromGeoTIFF
        rw [if_neg hbb, if_neg hcr, hv]
        simp [hnd]

/-- Witness for C4: at the exact right boundary `lon = maxX = 2` the
floored column equals `width`, the post-floor re-check fires and the
sampler returns NODATA rather than reading out of bounds. -/
theorem c4_raster_sampler_witness :
    rasterWit.samples.length = rasterWit.width * rasterWit.height ∧
    extractValueFromGeoTIFF rasterWit 2 0 = none :=
  ⟨rfl,
   ((c4_raster_sampler rasterWit 2 0 rfl).2 (by norm_num [rasterWit])
       (by norm_num [rasterWit]) (by norm_num [rasterWit]) (by norm_num [rasterWit])).1
     (Or.inr (Or.inl (by norm_num [colOf, cellWidth, rasterWit])))⟩

/-! ## C1: non-negativity of the recommended masses -/

/-- C1 failing-input evaluation: for the valid request `pBugZeroN`
(custom soil N = 0, accepted by the 0-300 validation), the rice engine's
nitrogen chain divides `4799.9239` by the zero soil value and every
urea / nitrogen mass of the returned recommendation is NaN (`none`, which
the JSON layer serializes as `null`) — not a non-negative number as the
claim requires. -/
theorem c1_zero_custom_soil_nan :
    (riceRecOf none none none (some 0) (some .wheat) (fun x => x) pBugZeroN
        (soilDataOf geoEmpty (fun _ => 0) Crop.rice pBugZeroN)).urea_base = none ∧
    (riceRecOf none none none (some 0) (some .wheat) (fun x => x) pBugZeroN
        (soilDataOf geoEmpty (fun _ => 0) Crop.rice pBugZeroN)).urea_tiller = none ∧
    (riceRecOf none none none (some 0) (some .wheat) (fun x => x) pBugZeroN
        (soilDataOf geoEmpty (fun _ => 0) Crop.rice pBugZeroN)).urea_panicle = none ∧
    (riceRecOf none none none (some 0) (some .wheat) (fun x => x) pBugZeroN
        (soilDataOf geoEmpty (fun _ => 0) Crop.rice pBugZeroN)).n_base = none ∧
    (riceRecOf none none none (some 0) (some .wheat) (fun x => x) pBugZeroN
        (soilDataOf geoEmpty (fun _ => 0) Crop.rice pBugZeroN)).n_tiller = none ∧
    (riceRecOf none none none (some 0) (some .wheat) (fun x => x) pBugZeroN
        (soilDataOf geoEmpty (fun _ => 0) Crop.rice pBugZeroN)).n_panicle = none := by
  have hsoil : (soilDataOf geoEmpty (fun _ => 0) Crop.rice pBugZeroN).soil_N = 0 := by
    simp [soilDataOf, pBugZeroN, getSoilNutrientsWithCustom, getSoilNutrientsFromGeoTIFF,
          geoLayerValue, geoEmpty]
  have hmid : (midOf none none none (some 0) (some .wheat) (fun x => x) Crop.rice pBugZeroN
      (soilDataOf geoEmpty (fun _ => 0) Crop.rice pBugZeroN)).nFert = none := by
    simp [midOf, calculateSoilSupply, hsoil]
  refine ⟨?_, ?_, ?_, ?_, ?_, ?_⟩ <;>
    simp [riceRecOf, riceNBase, riceNTiller, riceNPanicle, hmid]

end Fert
